import Mathlib

/-!
Verification of the go-logger facade (package logger, file logger.go).

The facade keeps three process-wide globals (`Log`, `serviceName`, `envName`)
and exposes `Init`, `New` and `Sync`.  We embed the globals as a state
record and each operation as an explicit state transition.  The external
zap engine (level parsing, field attachment, record emission) is modelled
by small definitions that follow the collaborator's documented behaviour.
-/

namespace GoLogger

/-- zapcore.Level values, in zap's severity order
debug < info < warn < error < dpanic < panic < fatal. -/
inductive Level where
  | debug
  | info
  | warn
  | error
  | dpanic
  | panic
  | fatal
deriving DecidableEq, Repr

/-- zap's numeric value of each severity (DebugLevel = -1, ... FatalLevel = 5). -/
def Level.toInt : Level → Int
  | .debug => -1
  | .info => 0
  | .warn => 1
  | .error => 2
  | .dpanic => 3
  | .panic => 4
  | .fatal => 5

/-- A core enables a record when its severity is at or above the minimum. -/
def levelEnabled (minL sev : Level) : Bool := decide (minL.toInt ≤ sev.toInt)

/-- Go unicode.IsSpace on a code point (the White_Space property):
U+0009..U+000D, U+0020, U+0085, U+00A0, U+1680, U+2000..U+200A,
U+2028, U+2029, U+202F, U+205F, U+3000. -/
def isGoSpace (c : Char) : Bool :=
  let n := c.toNat
  (9 ≤ n && n ≤ 13) || n = 32 || n = 0x85 || n = 0xA0 || n = 0x1680 ||
    (0x2000 ≤ n && n ≤ 0x200A) || n = 0x2028 || n = 0x2029 ||
    n = 0x202F || n = 0x205F || n = 0x3000

/-- Go strings.TrimSpace: drop leading and trailing white space. -/
def trimSpace (s : String) : String :=
  ⟨(((s.data.dropWhile isGoSpace).reverse).dropWhile isGoSpace).reverse⟩

/-- Unicode simple lower-case mapping of one character, restricted to
the code points whose mapping lands in ASCII: A..Z map to a..z, U+0130
(LATIN CAPITAL LETTER I WITH DOT ABOVE) maps to i, and U+212A (KELVIN
SIGN) maps to k.  These are the only characters in all of Unicode whose
simple lowercase is an ASCII letter, so for every other character —
whose real mapping can never produce a letter of a recognised severity
name — the model keeps the character unchanged. -/
def goLowerChar (c : Char) : Char :=
  if 'A' ≤ c ∧ c ≤ 'Z' then Char.ofNat (c.toNat + 32)
  else if c.toNat = 0x130 then 'i'
  else if c.toNat = 0x212A then 'k'
  else c

/-- Go strings.ToLower: the per-rune simple case mapping (see
goLowerChar for the covered code points). -/
def goToLower (s : String) : String := ⟨s.data.map goLowerChar⟩

/-- One pass of zapcore's level switch: the recognised severity names,
exactly lower-case or exactly upper-case, with "" meaning info. -/
def unmarshalOne (s : String) : Option Level :=
  if s = "debug" ∨ s = "DEBUG" then some .debug
  else if s = "info" ∨ s = "INFO" ∨ s = "" then some .info
  else if s = "warn" ∨ s = "WARN" then some .warn
  else if s = "error" ∨ s = "ERROR" then some .error
  else if s = "dpanic" ∨ s = "DPANIC" then some .dpanic
  else if s = "panic" ∨ s = "PANIC" then some .panic
  else if s = "fatal" ∨ s = "FATAL" then some .fatal
  else none

/-- zapcore.Level.UnmarshalText: try the text as given, then its
lower-cased form; fail when neither matches. -/
def unmarshalTextGo (s : String) : Option Level :=
  match unmarshalOne s with
  | some l => some l
  | none => unmarshalOne (goToLower s)

/-- The sugared logger the facade hands out: the core's minimum severity,
the two wrapper options passed by Init (caller capture, stack-trace
threshold) and the attached permanent structured fields, in order. -/
structure SugaredLogger where
  level : Level
  addCaller : Bool
  stackFrom : Level
  fields : List (String × String)
deriving DecidableEq, Repr

/-- zap SugaredLogger.With: attach further permanent key/value fields. -/
def sugarWith (l : SugaredLogger) (fs : List (String × String)) : SugaredLogger :=
  { l with fields := l.fields ++ fs }

/-- The package-level globals of logger.go: Log (nil when unset),
serviceName and envName (Go zero value ""). -/
structure LoggerState where
  log : Option SugaredLogger
  serviceName : String
  envName : String
deriving DecidableEq, Repr

/-- The state at process start: Log == nil, both names "". -/
def init0 : LoggerState := { log := none, serviceName := "", envName := "" }

/-- The error returned by Init; it quotes the unparsable resolved level
string ("invalid log level %q: ..."). -/
structure InitErr where
  lvlStr : String
deriving DecidableEq, Repr

def defaultLevel : String := "info"
def defaultService : String := "unknown-service"
def defaultEnv : String := "dev"

/-- The level-string resolution chain at the top of Init:
explicit arg > LOG_LEVEL > default, each trimmed. -/
def resolveLvlStr (logLevelEnv level : String) : String :=
  let a := trimSpace level
  let b := if a = "" then trimSpace logLevelEnv else a
  if b = "" then defaultLevel else b

/-- logger.Init.  `logLevelEnv` is the value os.Getenv("LOG_LEVEL")
returns ("" when the variable is unset).  Returns the new global state
and the error (none on success).  The error return happens before any
global is assigned, so on failure the state passes through unchanged.
On success the new logger is a fresh core wrapped with AddCaller and
AddStacktrace(error), sugared, with the resolved service and env
attached (the two identifier substitutions are independent ifs in the
source; they are written inline here instead of via local variables). -/
def Init (logLevelEnv : String) (st : LoggerState) (level service env : String) :
    LoggerState × Option InitErr :=
  match unmarshalTextGo (goToLower (resolveLvlStr logLevelEnv level)) with
  | none => (st, some { lvlStr := resolveLvlStr logLevelEnv level })
  | some zapLevel =>
    ({ log := some (sugarWith
          { level := zapLevel, addCaller := true, stackFrom := Level.error, fields := [] }
          [("service", if trimSpace service = "" then defaultService else service),
           ("env", if trimSpace env = "" then defaultEnv else env)]),
       serviceName := if trimSpace service = "" then defaultService else service,
       envName := if trimSpace env = "" then defaultEnv else env }, none)

/-- logger.ensureDefaultInit: when Log is nil, run Init with the three
hardcoded defaults and discard its error. -/
def ensureDefaultInit (logLevelEnv : String) (st : LoggerState) : LoggerState :=
  match st.log with
  | some _ => st
  | none => (Init logLevelEnv st defaultLevel defaultService defaultEnv).1

/-- logger.New: ensure a global logger exists, then derive the child with
the extra "module" field.  The first component is none exactly when the
Go code would dereference a nil Log. -/
def New (logLevelEnv : String) (st : LoggerState) (module : String) :
    Option SugaredLogger × LoggerState :=
  let st1 := ensureDefaultInit logLevelEnv st
  (st1.log.map (fun l => sugarWith l [("module", module)]), st1)

/-- The error Log.Sync() may report, with whether errors.Is(err,
syscall.EPIPE) holds for it. -/
structure FlushErr where
  isEPIPE : Bool
  msg : String
deriving DecidableEq, Repr

/-- logger.Sync.  `flush` is the outcome the underlying engine's flush
would report (none = flushed cleanly); when Log is nil the engine is
never consulted. -/
def Sync (st : LoggerState) (flush : Option FlushErr) : Option FlushErr :=
  match st.log with
  | none => none
  | some _ =>
    match flush with
    | none => none
    | some e => if e.isEPIPE then none else some e

/-- A structured record as the engine emits it for one logging call. -/
structure Record where
  level : Level
  msg : String
  fields : List (String × String)
  caller : Option String
  stacktrace : Option String
deriving DecidableEq, Repr

/-- Emission by the external engine for a logger built by this facade:
the core drops records below the minimum severity; an emitted record
carries the logger's permanent fields, the caller location when caller
capture is on, and the runtime stack capture exactly when the severity
reaches the logger's stack-trace threshold. -/
def emit (l : SugaredLogger) (sev : Level) (msg callerLoc stack : String) :
    Option Record :=
  if levelEnabled l.level sev then
    some { level := sev, msg := msg, fields := l.fields,
           caller := if l.addCaller then some callerLoc else none,
           stacktrace := if levelEnabled l.stackFrom sev then some stack else none }
  else none

/-- The operations a caller can perform on the facade's global state. -/
inductive Op where
  | initOp (level service env : String)
  | newOp (module : String)
  | syncOp (flush : Option FlushErr)
deriving DecidableEq, Repr

/-- The state transition of one operation (return values discarded). -/
def step (logLevelEnv : String) (st : LoggerState) : Op → LoggerState
  | .initOp level service env => (Init logLevelEnv st level service env).1
  | .newOp m => (New logLevelEnv st m).2
  | .syncOp _ => st

/-- Run a sequence of operations from a starting state. -/
def run (logLevelEnv : String) (st : LoggerState) (ops : List Op) : LoggerState :=
  ops.foldl (step logLevelEnv) st

/-- The level resolution order exactly as the specification words it:
the trimmed level argument when non-empty, otherwise the trimmed
environment value when non-empty, otherwise the hardcoded "info". -/
def claimResolvedLevel (logLevelEnv level : String) : String :=
  if trimSpace level ≠ "" then trimSpace level
  else if trimSpace logLevelEnv ≠ "" then trimSpace logLevelEnv
  else "info"

/-! ## Helper lemmas -/

/-- The source's resolution chain computes exactly the specification's
resolution order. -/
theorem resolve_eq_claim (lv level : String) :
    resolveLvlStr lv level = claimResolvedLevel lv level := by
  unfold resolveLvlStr claimResolvedLevel
  by_cases h1 : trimSpace level = "" <;> by_cases h2 : trimSpace lv = "" <;>
    simp [h1, h2, defaultLevel]

/-- A failing Init returns before any global is assigned. -/
theorem init_err_eq {lv level service env : String} {st st' : LoggerState}
    {e : InitErr} (h : Init lv st level service env = (st', some e)) :
    st' = st := by
  unfold Init at h
  rcases hm : unmarshalTextGo (goToLower (resolveLvlStr lv level)) with _ | zl <;>
    rw [hm] at h <;> simp at h
  exact h.1.symm

/-- A successful Init produced exactly the state the source constructs:
parsed level, caller capture on, stack traces from error, and the two
resolved identity fields, which are also the stored global names. -/
theorem init_ok {lv level service env : String} {st st' : LoggerState}
    (h : Init lv st level service env = (st', none)) :
    ∃ zl, unmarshalTextGo (goToLower (resolveLvlStr lv level)) = some zl ∧
      st' = ⟨some ⟨zl, true, Level.error,
          [("service", if trimSpace service = "" then defaultService else service),
           ("env", if trimSpace env = "" then defaultEnv else env)]⟩,
        (if trimSpace service = "" then defaultService else service),
        (if trimSpace env = "" then defaultEnv else env)⟩ := by
  unfold Init at h
  rcases hm : unmarshalTextGo (goToLower (resolveLvlStr lv level)) with _ | zl <;>
    rw [hm] at h <;> simp [sugarWith] at h
  exact ⟨zl, rfl, h.symm⟩

/-- Init with the three hardcoded defaults always succeeds, with the
default identity and the info minimum severity, whatever the prior
state and environment. -/
theorem init_default {lv : String} {st : LoggerState} :
    Init lv st defaultLevel defaultService defaultEnv =
      (⟨some ⟨Level.info, true, Level.error,
          [("service", defaultService), ("env", defaultEnv)]⟩,
        defaultService, defaultEnv⟩, none) := rfl

/-! ## Claim theorems -/

/-- C1: a successful Init stores the minimum severity obtained by
parsing the lower-cased form of the resolved level string, where the
resolution order is: trimmed level argument if non-empty, else trimmed
LOG_LEVEL value if non-empty, else the hardcoded "info". -/
theorem c1_level_resolution (lv level service env : String) (st st' : LoggerState)
    (l : SugaredLogger) (h : Init lv st level service env = (st', none))
    (hl : st'.log = some l) :
    unmarshalTextGo (goToLower (claimResolvedLevel lv level)) = some l.level := by
  obtain ⟨zl, hm, rfl⟩ := init_ok h
  rw [← resolve_eq_claim, hm]
  simp at hl
  rw [← hl]

/-- Witness for C1: a mixed-case explicit argument, with a non-ASCII
capital whose simple lowercase is ASCII i, resolves to panic. -/
theorem c1_witness :
    unmarshalTextGo (goToLower (claimResolvedLevel "" " PANİC ")) =
      some (⟨Level.panic, true, Level.error,
        [("service", "svc"), ("env", "prod")]⟩ : SugaredLogger).level :=
  c1_level_resolution "" " PANİC " "svc" "prod" init0
    ⟨some ⟨Level.panic, true, Level.error, [("service", "svc"), ("env", "prod")]⟩,
      "svc", "prod"⟩
    ⟨Level.panic, true, Level.error, [("service", "svc"), ("env", "prod")]⟩ rfl rfl

/-- C2: Init reports an error exactly when the lower-cased resolved
level string does not parse as a known severity; any input whose
resolved string parses (valid severity names in any letter case
included) succeeds, and the only error payload is the InvalidLevel
value quoting the resolved string. -/
theorem c2_invalid_level_iff (lv level service env : String) (st : LoggerState) :
    (Init lv st level service env).2.isSome = true ↔
      unmarshalTextGo (goToLower (claimResolvedLevel lv level)) = none := by
  rw [← resolve_eq_claim]
  unfold Init
  rcases hm : unmarshalTextGo (goToLower (resolveLvlStr lv level)) with _ | zl <;>
    simp [hm]

/-- C3: a failing Init leaves the global state exactly as it was,
including when the global logger was still unset. -/
theorem c3_failure_preserves_state (lv level service env : String)
    (st st' : LoggerState) (e : InitErr)
    (h : Init lv st level service env = (st', some e)) : st' = st :=
  init_err_eq h

/-- Witness for C3: an unparsable level leaves the unset start state
unchanged. -/
theorem c3_witness :
    Init "" init0 "bogus" "x" "y" =
        ((Init "" init0 "bogus" "x" "y").1, some ⟨"bogus"⟩) ∧
    (Init "" init0 "bogus" "x" "y").1 = init0 :=
  ⟨rfl, c3_failure_preserves_state "" "bogus" "x" "y" init0
    (Init "" init0 "bogus" "x" "y").1 ⟨"bogus"⟩ rfl⟩

/-- C4: Sync succeeds when the global logger is unset; a broken-pipe
flush failure is suppressed; any other flush failure is returned to the
caller unchanged. -/
theorem c4_sync_errors (st : LoggerState) (flush : Option FlushErr) :
    (st.log = none → Sync st flush = none) ∧
    (∀ e, flush = some e → e.isEPIPE = true → Sync st flush = none) ∧
    (∀ e, st.log.isSome → flush = some e → e.isEPIPE = false →
      Sync st flush = some e) := by
  rcases st with ⟨log, sn, en⟩
  rcases log with _ | l <;> rcases flush with _ | e <;> simp [Sync]

/-- Witness for C4: the three behaviours at concrete states and flush
outcomes. -/
theorem c4_witness :
    Sync init0 (some ⟨false, "disk full"⟩) = none ∧
    Sync ⟨some ⟨Level.info, true, Level.error, []⟩, "s", "e"⟩
        (some ⟨true, "broken pipe"⟩) = none ∧
    Sync ⟨some ⟨Level.info, true, Level.error, []⟩, "s", "e"⟩
        (some ⟨false, "disk full"⟩) = some ⟨false, "disk full"⟩ :=
  ⟨(c4_sync_errors init0 (some ⟨false, "disk full"⟩)).1 rfl,
   (c4_sync_errors ⟨some ⟨Level.info, true, Level.error, []⟩, "s", "e"⟩
      (some ⟨true, "broken pipe"⟩)).2.1 ⟨true, "broken pipe"⟩ rfl rfl,
   (c4_sync_errors ⟨some ⟨Level.info, true, Level.error, []⟩, "s", "e"⟩
      (some ⟨false, "disk full"⟩)).2.2 ⟨false, "disk full"⟩ rfl rfl rfl⟩

/-- C6: New passes the module string through untouched — no validation,
trimming or default substitution — and returns the global logger with
exactly one extra "module" field, leaving the state unchanged. -/
theorem c6_module_passthrough (lv : String) (st : LoggerState) (l : SugaredLogger)
    (m : String) (h : st.log = some l) :
    New lv st m = (some { l with fields := l.fields ++ [("module", m)] }, st) := by
  rcases st with ⟨log, sn, en⟩
  simp at h
  subst h
  simp [New, ensureDefaultInit, sugarWith]

/-- Witness for C6: deriving a module logger for the empty module string
appends the literal empty-valued "module" field. -/
theorem c6_witness :
    New "" ⟨some ⟨Level.info, true, Level.error,
        [("service", "svc"), ("env", "prod")]⟩, "svc", "prod"⟩ "" =
      (some ⟨Level.info, true, Level.error,
          [("service", "svc"), ("env", "prod"), ("module", "")]⟩,
        ⟨some ⟨Level.info, true, Level.error,
          [("service", "svc"), ("env", "prod")]⟩, "svc", "prod"⟩) :=
  c6_module_passthrough ""
    ⟨some ⟨Level.info, true, Level.error,
      [("service", "svc"), ("env", "prod")]⟩, "svc", "prod"⟩
    ⟨Level.info, true, Level.error, [("service", "svc"), ("env", "prod")]⟩ "" rfl

/-- C7: New always yields a logger and leaves the global logger set; its
internal lazy initialization with the hardcoded defaults never errors. -/
theorem c7_new_never_fails (lv : String) (st : LoggerState) (m : String) :
    (New lv st m).1.isSome = true ∧ (New lv st m).2.log.isSome = true ∧
    (Init lv st defaultLevel defaultService defaultEnv).2 = none := by
  rcases st with ⟨log, sn, en⟩
  rcases log with _ | l
  · simp [New, ensureDefaultInit, init_default]
  · simp [New, ensureDefaultInit, init_default]

/-- C8: the trimmed-empty service and env arguments are independently
replaced by the hardcoded defaults in the attached fields and stored
identity, and the all-empty call with LOG_LEVEL unset produces the
default service, default env and the info minimum severity. -/
theorem c8_default_identity (lv level service env : String) (st st' : LoggerState)
    (h : Init lv st level service env = (st', none)) :
    (st'.serviceName = if trimSpace service = "" then defaultService else service) ∧
    (st'.envName = if trimSpace env = "" then defaultEnv else env) ∧
    (∃ l, st'.log = some l ∧
        l.fields = [("service", st'.serviceName), ("env", st'.envName)]) ∧
    Init "" st "" "" "" =
      (⟨some ⟨Level.info, true, Level.error,
          [("service", defaultService), ("env", defaultEnv)]⟩,
        defaultService, defaultEnv⟩, none) := by
  obtain ⟨zl, hm, rfl⟩ := init_ok h
  exact ⟨rfl, rfl, ⟨_, rfl, rfl⟩, rfl⟩

/-- Witness for C8: the all-empty initialization stores the default
identity. -/
theorem c8_witness :
    (Init "" init0 "" "" "").1.serviceName = defaultService ∧
    (Init "" init0 "" "" "").1.envName = defaultEnv := by
  have h := c8_default_identity "" "" "" "" init0 (Init "" init0 "" "" "").1 rfl
  exact ⟨h.1.trans (if_pos rfl), h.2.1.trans (if_pos rfl)⟩

/-- C9: every logger Init builds captures the caller on each emitted
record, and attaches the stack capture exactly on records at error
severity or above: an emitted error record carries the (non-empty)
stack, an emitted info record carries none. -/
theorem c9_stacktrace_threshold (lv level service env msg c stk : String)
    (st st' : LoggerState) (l : SugaredLogger)
    (h : Init lv st level service env = (st', none)) (hl : st'.log = some l)
    (hstk : stk ≠ "") :
    (∀ r, emit l Level.error msg c stk = some r →
      r.caller = some c ∧ r.stacktrace = some stk ∧ stk ≠ "") ∧
    (∀ r, emit l Level.info msg c stk = some r →
      r.caller = some c ∧ r.stacktrace = none) := by
  obtain ⟨zl, hm, rfl⟩ := init_ok h
  simp at hl
  subst hl
  constructor <;> intro r hr <;> unfold emit at hr <;> split at hr <;>
    simp_all [levelEnabled, Level.toInt] <;>
    (obtain ⟨-, rfl⟩ := hr; exact ⟨rfl, rfl⟩)

/-- Witness for C9: under a debug-level logger from Init, the emitted
error record carries the caller and the non-empty stack capture, the
emitted info record carries the caller and no stack capture. -/
theorem c9_witness :
    ((⟨Level.error, "boom", [("service", "unknown-service"), ("env", "dev")],
        some "main.go:10", some "stack frames"⟩ : Record).caller = some "main.go:10" ∧
      (⟨Level.error, "boom", [("service", "unknown-service"), ("env", "dev")],
        some "main.go:10", some "stack frames"⟩ : Record).stacktrace =
          some "stack frames" ∧
      "stack frames" ≠ "") ∧
    ((⟨Level.info, "boom", [("service", "unknown-service"), ("env", "dev")],
        some "main.go:10", none⟩ : Record).caller = some "main.go:10" ∧
      (⟨Level.info, "boom", [("service", "unknown-service"), ("env", "dev")],
        some "main.go:10", none⟩ : Record).stacktrace = none) :=
  ⟨(c9_stacktrace_threshold "" "debug" "" "" "boom" "main.go:10" "stack frames"
      init0
      ⟨some ⟨Level.debug, true, Level.error,
        [("service", "unknown-service"), ("env", "dev")]⟩, "unknown-service", "dev"⟩
      ⟨Level.debug, true, Level.error,
        [("service", "unknown-service"), ("env", "dev")]⟩
      rfl rfl (by decide)).1
    ⟨Level.error, "boom", [("service", "unknown-service"), ("env", "dev")],
      some "main.go:10", some "stack frames"⟩ rfl,
   (c9_stacktrace_threshold "" "debug" "" "" "boom" "main.go:10" "stack frames"
      init0
      ⟨some ⟨Level.debug, true, Level.error,
        [("service", "unknown-service"), ("env", "dev")]⟩, "unknown-service", "dev"⟩
      ⟨Level.debug, true, Level.error,
        [("service", "unknown-service"), ("env", "dev")]⟩
      rfl rfl (by decide)).2
    ⟨Level.info, "boom", [("service", "unknown-service"), ("env", "dev")],
      some "main.go:10", none⟩ rfl⟩

/-- C10: when service and env do not trim to empty, the original
untrimmed strings are stored and attached verbatim. -/
theorem c10_untrimmed_values (lv level service env : String) (st st' : LoggerState)
    (hs : trimSpace service ≠ "") (he : trimSpace env ≠ "")
    (h : Init lv st level service env = (st', none)) :
    st'.serviceName = service ∧ st'.envName = env ∧
    ∃ l, st'.log = some l ∧ l.fields = [("service", service), ("env", env)] := by
  obtain ⟨zl, hm, rfl⟩ := init_ok h
  simp [hs, he, sugarWith]

/-- Witness for C10: service and env with surrounding blanks are kept
with the blanks. -/
theorem c10_witness :
    (Init "" init0 "info" " svc " "prod ").1.serviceName = " svc " ∧
    (Init "" init0 "info" " svc " "prod ").1.envName = "prod " ∧
    ∃ l, (Init "" init0 "info" " svc " "prod ").1.log = some l ∧
      l.fields = [("service", " svc "), ("env", "prod ")] :=
  c10_untrimmed_values "" "info" " svc " "prod " init0
    (Init "" init0 "info" " svc " "prod ").1 (by decide) (by decide) rfl

/-! ## The fields invariant over operation sequences -/

/-- Whenever the global logger is set, its permanent fields are exactly
service and env with the stored identity values. -/
def GoodState (st : LoggerState) : Prop :=
  ∀ l, st.log = some l →
    l.fields = [("service", st.serviceName), ("env", st.envName)]

theorem goodState_init0 : GoodState init0 := by
  intro l h
  simp [init0] at h

theorem goodState_init1 (lv level service env : String) (st : LoggerState)
    (h : GoodState st) : GoodState (Init lv st level service env).1 := by
  rcases he : Init lv st level service env with ⟨st', err⟩
  rcases err with _ | e
  · obtain ⟨zl, hm, rfl⟩ := init_ok he
    intro l hl
    simp at hl
    subst hl
    rfl
  · obtain rfl := init_err_eq he
    exact h

theorem goodState_step (lv : String) (st : LoggerState) (op : Op)
    (h : GoodState st) : GoodState (step lv st op) := by
  cases op with
  | initOp level service env => exact goodState_init1 lv level service env st h
  | newOp m =>
    show GoodState (ensureDefaultInit lv st)
    unfold ensureDefaultInit
    rcases hl : st.log with _ | l
    · exact goodState_init1 lv defaultLevel defaultService defaultEnv st h
    · exact h
  | syncOp flush => exact h

theorem goodState_run (lv : String) (ops : List Op) (st : LoggerState)
    (h : GoodState st) : GoodState (run lv st ops) := by
  induction ops generalizing st with
  | nil => exact h
  | cons op rest ih => exact ih (step lv st op) (goodState_step lv st op h)

/-- C5: after any sequence of operations from the start state, a set
global logger carries exactly the service and env fields holding the
identity of the last successful initialization (re-initialization
replaces the field set wholesale, nothing is merged), and a derived
module logger carries those two fields plus exactly one module field. -/
theorem c5_fields_invariant (lv m : String) (ops : List Op) (l : SugaredLogger)
    (h : (run lv init0 ops).log = some l) :
    l.fields = [("service", (run lv init0 ops).serviceName),
      ("env", (run lv init0 ops).envName)] ∧
    (New lv (run lv init0 ops) m).1 =
      some { l with fields := l.fields ++ [("module", m)] } := by
  refine ⟨goodState_run lv ops init0 goodState_init0 l h, ?_⟩
  have h2 : ensureDefaultInit lv (run lv init0 ops) = run lv init0 ops := by
    unfold ensureDefaultInit
    rw [h]
  unfold New
  rw [h2]
  show (Option.map (fun l => sugarWith l [("module", m)])
      (run lv init0 ops).log, run lv init0 ops).1 = _
  rw [h]
  rfl

/-- Witness for C5: one init followed by a module derivation shows the
exact field sets. -/
theorem c5_witness :
    (⟨Level.debug, true, Level.error,
        [("service", "svc"), ("env", "prod")]⟩ : SugaredLogger).fields =
      [("service", (run "" init0 [Op.initOp "debug" "svc" "prod"]).serviceName),
       ("env", (run "" init0 [Op.initOp "debug" "svc" "prod"]).envName)] ∧
    (New "" (run "" init0 [Op.initOp "debug" "svc" "prod"]) "http").1 =
      some ⟨Level.debug, true, Level.error,
        [("service", "svc"), ("env", "prod"), ("module", "http")]⟩ :=
  c5_fields_invariant "" "http" [Op.initOp "debug" "svc" "prod"]
    ⟨Level.debug, true, Level.error, [("service", "svc"), ("env", "prod")]⟩ rfl

end GoLogger
